import Mathlib

/-!
Verification of the lineup/formation reconstruction logic of
`pvd_Sofascore.py` (functions `determine_position` and
`get_lineups_from_events`).

Modelling conventions:
* Python `int` is modelled as `ℤ` (arbitrary precision, so no overflow).
* Python `None` / strings are modelled as `Option String`; a triple
  `(line, lat, pos)` becomes a triple of `Option String`.
* Python f-string `f'{a}/{b}'` on integers is `fmtFrac a b`.
* The average-position coordinates are only carried through (never computed
  with), so their float values are modelled as `ℤ` without loss.
* A raised-and-caught Python exception is modelled as `Option.none` at the
  granularity at which the source catches it.
-/

/-- Python `f'{num}/{den}'` for integers. -/
def fmtFrac (num den : ℤ) : String :=
  toString num ++ "/" ++ toString den

/-- Shallow embedding of `determine_position` (pvd_Sofascore.py lines
548-603).  The if/elif chain is translated condition for condition. -/
def determine_position (order def_count mid_0_count mid_1_count mid_2_count ata_count : ℤ)
    (substitute : Bool) : Option String × Option String × Option String :=
  let home_por : ℤ := 1
  if order = home_por then
    (some "por", some "1/1", some "POR")
  else if order ≤ home_por + def_count then
    (some "def", some (fmtFrac (order - home_por) def_count), some "DEF")
  else if order ≤ home_por + def_count + mid_0_count then
    (some "mid_0", some (fmtFrac (order - home_por - def_count) mid_0_count), some "MED")
  else if order ≤ home_por + def_count + mid_0_count + mid_1_count then
    (some "mid_1", some (fmtFrac (order - home_por - def_count - mid_0_count) mid_1_count),
      some "MED")
  else if order ≤ home_por + def_count + mid_0_count + mid_1_count + mid_2_count then
    (some "mid_2",
      some (fmtFrac (order - home_por - def_count - mid_0_count - mid_1_count) mid_2_count),
      some "MED")
  else if order ≤ home_por + def_count + mid_0_count + mid_1_count + mid_2_count + ata_count then
    (some "ata",
      some (fmtFrac (order - home_por - def_count - mid_0_count - mid_1_count - mid_2_count)
        ata_count),
      some "ATA")
  else if 11 < order ∧ substitute = true then
    (none, none, some "SUS")
  else if 11 < order ∧ ¬(substitute = true) then
    (none, none, some "RES")
  else
    (none, none, none)

/-- The five per-line counts extracted from a formation string,
as computed in `get_lineups_from_events` lines 343-354. -/
structure FormationCounts where
  defC : ℤ
  mid0 : ℤ
  mid1 : ℤ
  mid2 : ℤ
  ata : ℤ
deriving DecidableEq

/-- Shallow embedding of the formation-string handling of
`get_lineups_from_events` (lines 343-354): the input is the result of
`formation.split('-')` with every group already converted by `int` (a group
on which `int` raises aborts the match before this point, which the caller
models as `none`).  `groups[0]`, `groups[-1]` and `groups[1]`/`groups[2]`
are read exactly as in the source; a missing index is Python's `IndexError`,
modelled as `none`. -/
def parseFormationCounts (groups : List ℤ) : Option FormationCounts :=
  match groups.get? 0, groups.getLast? with
  | some d, some a =>
    if groups.length = 4 then
      match groups.get? 1, groups.get? 2 with
      | some m0, some m2 => some ⟨d, m0, 0, m2, a⟩
      | _, _ => none
    else
      match groups.get? 1 with
      | some m1 => some ⟨d, 0, m1, 0, a⟩
      | none => none
  | _, _ => none

/-- One entry of `lineups[side]['players']` as read by
`get_lineups_from_events` (lines 377-384 / 401-408). -/
structure Player where
  name : String
  id : ℤ
  jersey : ℤ
  position : String
  substitute : Bool
  minutes : ℤ
deriving DecidableEq

/-- One entry of `average_positions[side]`: the player identifier and the
spatial aggregate read at lines 386-391 / 410-415. -/
structure AvgSample where
  id : ℤ
  averageX : ℤ
  averageY : ℤ
  pointsCount : ℤ
deriving DecidableEq

/-- One element appended to the `home` / `away` list (lines 397 / 421). -/
structure LineupListRow where
  player : String
  id : ℤ
  jersey : ℤ
  position : String
  substitute : Bool
  minutes : ℤ
  order : ℤ
  line : Option String
  lat : Option String
  pos : Option String
deriving DecidableEq

/-- A row of `home_df` / `away_df` after the team metadata columns are added
(lines 425-439). -/
structure TeamRow extends LineupListRow where
  local_ : String
  team : String
  formation : List ℤ
  defense : ℤ
  midfield : ℤ
  attack : ℤ
deriving DecidableEq

/-- A row of `df_merged` (line 449): a `TeamRow` with the left-joined
average-position columns, null when the join found no partner. -/
structure MergedRow extends TeamRow where
  averageX : Option ℤ
  averageY : Option ℤ
  pointsCount : Option ℤ
deriving DecidableEq

/-- The per-player loop of `get_lineups_from_events` for one side
(lines 377-398, identically 401-422).  The loop index is `j`; `lastAvg` is
the state of the Python local variables `avg_id`/`averageX`/`averageY`/
`pointsCount`, which are only reassigned when `j < len(average_positions)`
(line 386) and otherwise keep their previous value — across loop
iterations, across the two sides and across events, because they are
function-scoped locals.  `home_avg.append([avg_id, ...])` (line 398) with
those variables never yet assigned raises `NameError`, modelled by the
`none` result; the second component of the result is the variables' state
when the loop ends or aborts. -/
def processTeamGo (c : FormationCounts) (avgList : List AvgSample) :
    List Player → ℕ → Option AvgSample →
      Option (List LineupListRow × List AvgSample) × Option AvgSample
  | [], _, lastAvg => (some ([], []), lastAvg)
  | p :: rest, j, lastAvg =>
    let lastAvg2 := match avgList.get? j with
      | some s => some s
      | none => lastAvg
    match lastAvg2 with
    | none => (none, none)
    | some s =>
      let order : ℤ := (j : ℤ) + 1
      let r := determine_position order c.defC c.mid0 c.mid1 c.mid2 c.ata p.substitute
      let row : LineupListRow :=
        ⟨p.name, p.id, p.jersey, p.position, p.substitute, p.minutes, order,
          r.1, r.2.1, r.2.2⟩
      match processTeamGo c avgList rest (j + 1) (some s) with
      | (none, st) => (none, st)
      | (some (rows, avgs), st) => (some (row :: rows, s :: avgs), st)

/-- The data of one side of one event as handed to the lineup assembler:
the formation string already split on `'-'` (integer groups), the ordered
player list, and the ordered average-position list. -/
structure TeamInput where
  formationGroups : List ℤ
  players : List Player
  avgList : List AvgSample
deriving DecidableEq

/-- The already-fetched data of one finished event. -/
structure MatchInput where
  home : TeamInput
  away : TeamInput
  homeTeamName : String
  awayTeamName : String
deriving DecidableEq

/-- `pd.merge(df, df_avg_position, on='id', how='left')` (line 449): left
rows in order; each left row is repeated once per matching right row (in
right order), or kept once with nulls when no right row matches. -/
def mergeLeft (rows : List TeamRow) (avgs : List AvgSample) : List MergedRow :=
  rows.flatMap fun r =>
    let hits := avgs.filter fun s => s.id == r.id
    match hits with
    | [] => [⟨r, none, none, none⟩]
    | _ => hits.map fun s => ⟨r, some s.averageX, some s.averageY, some s.pointsCount⟩

/-- The per-event body of `get_lineups_from_events` (lines 343-452) for a
finished event: parse both formations, run both per-side loops, attach the
team metadata, concatenate and left-merge.  `st0` is the inherited state of
the `avg_*` local variables (they survive from earlier events); the result
carries the updated state.  `none` models an exception caught by the
`except` at line 454. -/
def processMatch (st0 : Option AvgSample) (m : MatchInput) :
    Option (List MergedRow) × Option AvgSample :=
  match parseFormationCounts m.home.formationGroups,
        parseFormationCounts m.away.formationGroups with
  | some hc, some ac =>
    match processTeamGo hc m.home.avgList m.home.players 0 st0 with
    | (none, st1) => (none, st1)
    | (some (hrows, havgs), st1) =>
      match processTeamGo ac m.away.avgList m.away.players 0 st1 with
      | (none, st2) => (none, st2)
      | (some (arows, aavgs), st2) =>
        let homeRows := hrows.map fun r =>
          TeamRow.mk r "Home" m.homeTeamName m.home.formationGroups hc.defC
            (hc.mid0 + hc.mid1 + hc.mid2) hc.ata
        let awayRows := arows.map fun r =>
          TeamRow.mk r "Away" m.awayTeamName m.away.formationGroups ac.defC
            (ac.mid0 + ac.mid1 + ac.mid2) ac.ata
        (some (mergeLeft (homeRows ++ awayRows) (havgs ++ aavgs)), st2)
  | _, _ => (none, st0)

/-- One element of the `events` argument of `get_lineups_from_events`, with
the external fetching already resolved: the fetch itself may raise
(`fetchError`), the event may not be finished (`notFinished`), or the
already-fetched lineup data is available (`finished`). -/
inductive EventOutcome where
  | fetchError : EventOutcome
  | notFinished : EventOutcome
  | finished : MatchInput → EventOutcome
deriving DecidableEq

/-- The batch loop and final concatenation of `get_lineups_from_events`
(lines 321-330 and 454-462): each event's contribution is computed inside
`try`/`except`, a failure or a non-finished status contributes nothing, and
the `avg_*` locals thread through the whole call.  The final
`pd.concat(dfs, ignore_index=True)` at line 459 raises `ValueError` when
`dfs` is empty, modelled by `none`. -/
def get_lineups_from_events (events : List EventOutcome) : Option (List MergedRow) :=
  let result := events.foldl
    (fun (acc : List (List MergedRow) × Option AvgSample) e =>
      match e with
      | EventOutcome.fetchError => acc
      | EventOutcome.notFinished => acc
      | EventOutcome.finished m =>
        match processMatch acc.2 m with
        | (some df, st) => (acc.1 ++ [df], st)
        | (none, st) => (acc.1, st))
    ([], none)
  match result.1 with
  | [] => none
  | dfs => some dfs.flatten

-- Sanity checks of the embedding on the 4-2-3-1 end-to-end scenario.
example : determine_position 1 4 2 0 3 1 false = (some "por", some "1/1", some "POR") := by decide
example : determine_position 3 4 2 0 3 1 false = (some "def", some "2/4", some "DEF") := by decide
example : determine_position 6 4 2 0 3 1 false = (some "mid_0", some "1/2", some "MED") := by
  decide
example : determine_position 9 4 2 0 3 1 false = (some "mid_2", some "2/3", some "MED") := by
  decide
example : determine_position 11 4 2 0 3 1 false = (some "ata", some "1/1", some "ATA") := by
  decide
example : determine_position 12 4 2 0 3 1 true = (none, none, some "SUS") := by decide
example : determine_position 12 4 2 0 3 1 false = (none, none, some "RES") := by decide
example : parseFormationCounts [4, 2, 3, 1] = some ⟨4, 2, 0, 3, 1⟩ := by decide
example : parseFormationCounts [4, 3, 3] = some ⟨4, 0, 3, 0, 3⟩ := by decide
example : parseFormationCounts [4, 6] = some ⟨4, 0, 6, 0, 6⟩ := by decide
example : parseFormationCounts [10] = none := by decide

/-- Fixture: a starter with identifier `i`. -/
def mkPlayer (i : ℤ) : Player := ⟨"p" ++ toString i, i, i, "", false, 90⟩

/-- Fixture: an average-position sample for the player with identifier `i`. -/
def mkSample (i : ℤ) : AvgSample := ⟨i, 30 + i, 40 + i, 20 + i⟩

/-- Fixture: home roster of two players with aligned samples, away roster of
one player with an aligned sample. -/
def matchAligned : MatchInput :=
  ⟨⟨[4, 4, 2], [mkPlayer 1, mkPlayer 2], [mkSample 1, mkSample 2]⟩,
   ⟨[4, 4, 2], [mkPlayer 3], [mkSample 3]⟩, "H", "A"⟩

/-- Fixture: as `matchAligned`, but the home sample list has one entry
fewer than the home roster. -/
def matchShortSample : MatchInput :=
  ⟨⟨[4, 4, 2], [mkPlayer 1, mkPlayer 2], [mkSample 1]⟩,
   ⟨[4, 4, 2], [mkPlayer 3], [mkSample 3]⟩, "H", "A"⟩

/-- Fixture: as `matchAligned`, but the home sample list is empty. -/
def matchEmptySample : MatchInput :=
  ⟨⟨[4, 4, 2], [mkPlayer 1, mkPlayer 2], []⟩,
   ⟨[4, 4, 2], [mkPlayer 3], [mkSample 3]⟩, "H", "A"⟩

/-- Fixture: a one-player-per-side match whose formation strings have only
two numeric groups. -/
def matchTwoGroups : MatchInput :=
  ⟨⟨[4, 6], [mkPlayer 1], [mkSample 1]⟩,
   ⟨[4, 6], [mkPlayer 3], [mkSample 3]⟩, "H", "A"⟩

-- Sanity checks: shape of the assembler's output on the fixtures.
example : ((processMatch none matchAligned).1.getD []).length = 3 := by decide
example : ((processMatch none matchAligned).1.getD []).all
    (fun r => r.averageX.isSome && r.averageY.isSome && r.pointsCount.isSome) := by decide
example : ((processMatch none matchShortSample).1.getD []).length = 4 := by decide
example : ((processMatch none matchShortSample).1.getD []).countP
    (fun r => r.averageX.isNone) = 1 := by decide
example : (((processMatch none matchShortSample).1.getD []).filter
    (fun r => r.averageX.isNone)).map (fun r => r.id) = [2] := by decide
example : ((processMatch none matchShortSample).1.getD []).countP
    (fun r => r.id == 1) = 2 := by decide
example : (processMatch none matchEmptySample).1 = none := by decide
example : (processMatch none matchTwoGroups).1.isSome = true := by decide
example : get_lineups_from_events [EventOutcome.fetchError] = none := by decide
example : get_lineups_from_events [] = none := by decide
example : (get_lineups_from_events
    [EventOutcome.fetchError, EventOutcome.finished matchAligned]).isSome = true := by decide

/-! ### Helper lemmas about `determine_position` -/

/-- Orders in the defender window resolve to the defense branch. -/
lemma dp_def_branch (order d m0 m1 m2 a : ℤ) (s : Bool)
    (h1 : 1 < order) (h2 : order ≤ 1 + d) :
    determine_position order d m0 m1 m2 a s =
      (some "def", some (fmtFrac (order - 1) d), some "DEF") := by
  simp only [determine_position]
  split_ifs <;> first | rfl | omega

/-- Orders in the first midfield window resolve to the mid-0 branch. -/
lemma dp_mid0_branch (order d m0 m1 m2 a : ℤ) (s : Bool)
    (h1 : 1 < order) (hprev : 1 + d < order) (h2 : order ≤ 1 + d + m0) :
    determine_position order d m0 m1 m2 a s =
      (some "mid_0", some (fmtFrac (order - 1 - d) m0), some "MED") := by
  simp only [determine_position]
  split_ifs <;> first | rfl | omega

/-- Orders in the second midfield window resolve to the mid-1 branch. -/
lemma dp_mid1_branch (order d m0 m1 m2 a : ℤ) (s : Bool) (hm0 : 0 ≤ m0)
    (h1 : 1 < order) (hprev : 1 + d + m0 < order) (h2 : order ≤ 1 + d + m0 + m1) :
    determine_position order d m0 m1 m2 a s =
      (some "mid_1", some (fmtFrac (order - 1 - d - m0) m1), some "MED") := by
  simp only [determine_position]
  split_ifs <;> first | rfl | omega

/-- Orders in the third midfield window resolve to the mid-2 branch. -/
lemma dp_mid2_branch (order d m0 m1 m2 a : ℤ) (s : Bool) (hm0 : 0 ≤ m0) (hm1 : 0 ≤ m1)
    (h1 : 1 < order) (hprev : 1 + d + m0 + m1 < order)
    (h2 : order ≤ 1 + d + m0 + m1 + m2) :
    determine_position order d m0 m1 m2 a s =
      (some "mid_2", some (fmtFrac (order - 1 - d - m0 - m1) m2), some "MED") := by
  simp only [determine_position]
  split_ifs <;> first | rfl | omega

/-- Orders in the attacker window resolve to the attack branch. -/
lemma dp_ata_branch (order d m0 m1 m2 a : ℤ) (s : Bool) (hm0 : 0 ≤ m0) (hm1 : 0 ≤ m1)
    (hm2 : 0 ≤ m2) (h1 : 1 < order) (hprev : 1 + d + m0 + m1 + m2 < order)
    (h2 : order ≤ 1 + d + m0 + m1 + m2 + a) :
    determine_position order d m0 m1 m2 a s =
      (some "ata", some (fmtFrac (order - 1 - d - m0 - m1 - m2) a), some "ATA") := by
  simp only [determine_position]
  split_ifs <;> first | rfl | omega

/-- With a structurally zero mid-1 group, the mid-1 line is never produced. -/
lemma dp_ne_mid1 (d m0 m1 m2 a : ℤ) (h : m1 = 0) (o : ℤ) (s : Bool) :
    (determine_position o d m0 m1 m2 a s).1 ≠ some "mid_1" := by
  intro hc
  simp only [determine_position] at hc
  split_ifs at hc <;> simp_all <;> omega

/-- With a structurally zero mid-0 group, the mid-0 line is never produced. -/
lemma dp_ne_mid0 (d m0 m1 m2 a : ℤ) (h : m0 = 0) (o : ℤ) (s : Bool) :
    (determine_position o d m0 m1 m2 a s).1 ≠ some "mid_0" := by
  intro hc
  simp only [determine_position] at hc
  split_ifs at hc <;> simp_all <;> omega

/-- With a structurally zero mid-2 group, the mid-2 line is never produced. -/
lemma dp_ne_mid2 (d m0 m1 m2 a : ℤ) (h : m2 = 0) (o : ℤ) (s : Bool) :
    (determine_position o d m0 m1 m2 a s).1 ≠ some "mid_2" := by
  intro hc
  simp only [determine_position] at hc
  split_ifs at hc <;> simp_all <;> omega

/-- A list of length three is an explicit three-element list. -/
lemma list_length_three {α : Type} {l : List α} (h : l.length = 3) :
    ∃ a b c, l = [a, b, c] := by
  rcases l with _ | ⟨a, _ | ⟨b, _ | ⟨c, _ | ⟨e, t⟩⟩⟩⟩
  · exfalso; simp only [List.length_nil] at h; omega
  · exfalso; simp only [List.length_cons, List.length_nil] at h; omega
  · exfalso; simp only [List.length_cons, List.length_nil] at h; omega
  · exact ⟨a, b, c, rfl⟩
  · exfalso; simp only [List.length_cons] at h; omega

/-- A list of length four is an explicit four-element list. -/
lemma list_length_four {α : Type} {l : List α} (h : l.length = 4) :
    ∃ a b c d, l = [a, b, c, d] := by
  rcases l with _ | ⟨a, _ | ⟨b, _ | ⟨c, _ | ⟨d, _ | ⟨e, t⟩⟩⟩⟩⟩
  · exfalso; simp only [List.length_nil] at h; omega
  · exfalso; simp only [List.length_cons, List.length_nil] at h; omega
  · exfalso; simp only [List.length_cons, List.length_nil] at h; omega
  · exfalso; simp only [List.length_cons, List.length_nil] at h; omega
  · exact ⟨a, b, c, d, rfl⟩
  · exfalso; simp only [List.length_cons] at h; omega

/-! ### Claim theorems -/

/-- C3: `determine_position` with order 1 returns the goalkeeper line
`'por'`, lateral slot `"1/1"` and goalkeeper code `'POR'` (the code's names
for the spec's goalkeeper/`GK`), for every formation counts and both values
of the substitute flag. -/
theorem c3_order_one_goalkeeper (d m0 m1 m2 a : ℤ) (sub : Bool) :
    determine_position 1 d m0 m1 m2 a sub = (some "por", some "1/1", some "POR") := by
  simp [determine_position]

/-- C5: `determine_position` is a total function in this embedding (it is a
Lean `def`, so it returns a triple on every input), and whenever the order
exceeds every cumulative group boundary (the keeper boundary 1 and all five
cumulative sums, with any integer group counts, summing to 10 or not) while
not exceeding 11, the result is the all-null fallback triple. -/
theorem c5_fallback_null_triple (order d m0 m1 m2 a : ℤ) (sub : Bool)
    (h1 : 1 < order) (h2 : 1 + d < order) (h3 : 1 + d + m0 < order)
    (h4 : 1 + d + m0 + m1 < order) (h5 : 1 + d + m0 + m1 + m2 < order)
    (h6 : 1 + d + m0 + m1 + m2 + a < order) (h7 : order ≤ 11) :
    determine_position order d m0 m1 m2 a sub = (none, none, none) := by
  simp only [determine_position]
  split_ifs <;> first | rfl | omega

/-- Witness for C5 at order 11 with counts 4-3-2 (summing to 9, not 10). -/
theorem c5_fallback_null_triple_witness :
    determine_position 11 4 0 3 0 2 false = (none, none, none) :=
  c5_fallback_null_triple 11 4 0 3 0 2 false (by decide) (by decide) (by decide)
    (by decide) (by decide) (by decide) (by decide)

/-- C10: the substitute flag does not influence resolution for orders that
fall within the formation groups: for `2 ≤ order ≤ 1 + def + mid0 + mid1 +
mid2 + ata` the result is identical for both flag values, because the flag
is only consulted in the branches behind the last group boundary. -/
theorem c10_substitute_flag_noninterference (order d m0 m1 m2 a : ℤ)
    (h2 : 2 ≤ order) (hle : order ≤ 1 + d + m0 + m1 + m2 + a) :
    determine_position order d m0 m1 m2 a true =
      determine_position order d m0 m1 m2 a false := by
  simp only [determine_position]
  split_ifs <;> first | rfl | omega

/-- Witness for C10 at order 3 in a 4-2-3-1 formation. -/
theorem c10_substitute_flag_noninterference_witness :
    determine_position 3 4 2 0 3 1 true = determine_position 3 4 2 0 3 1 false :=
  c10_substitute_flag_noninterference 3 4 2 0 3 1 (by decide) (by decide)

/-- C2: when the outfield counts are nonnegative and total 10, every order
greater than 11 resolves to null line, null lateral slot, and code `'SUS'`
(the code's name for the spec's `SUB`) when the substitute flag is true,
and code `'RES'` (the spec's `RESERVE`) when it is false. -/
theorem c2_bench_and_reserve_codes (d m0 m1 m2 a : ℤ)
    (hd : 0 ≤ d) (hm0 : 0 ≤ m0) (hm1 : 0 ≤ m1) (hm2 : 0 ≤ m2) (ha : 0 ≤ a)
    (hsum : d + m0 + m1 + m2 + a = 10) (order : ℤ) (hord : 11 < order) :
    determine_position order d m0 m1 m2 a true = (none, none, some "SUS") ∧
    determine_position order d m0 m1 m2 a false = (none, none, some "RES") := by
  constructor <;>
    (simp only [determine_position]; split_ifs <;>
      first | rfl | omega | (simp_all; all_goals omega))

/-- Witness for C2 at order 12 in a 4-2-3-1 formation. -/
theorem c2_bench_and_reserve_codes_witness :
    determine_position 12 4 2 0 3 1 true = (none, none, some "SUS") ∧
    determine_position 12 4 2 0 3 1 false = (none, none, some "RES") :=
  c2_bench_and_reserve_codes 4 2 0 3 1 (by decide) (by decide) (by decide) (by decide)
    (by decide) (by decide) 12 (by decide)

/-- C1: for counts derived from a valid 3- or 4-group formation (positive
numeric groups) and any order greater than 1, `determine_position` assigns
the groups in the fixed order defense, mid-0, mid-1, mid-2, attack using
cumulative boundaries starting at 1: an order in a group's window yields
that group's line label (`'def'`/`'mid_0'`/`'mid_1'`/`'mid_2'`/`'ata'`),
its position code (`'DEF'`, `'MED'` for each midfield sub-group, `'ATA'`),
and lateral slot `"{order - previous boundary}/{group size}"`; a 4-group
string puts its second and third groups into mid-0 and mid-2 with mid-1
structurally 0 and the `'mid_1'` line never produced, while a 3-group
string puts its middle group into mid-1 with mid-0/mid-2 structurally 0 and
the `'mid_0'`/`'mid_2'` lines never produced. -/
theorem c1_formation_group_resolution (groups : List ℤ) (c : FormationCounts)
    (hparse : parseFormationCounts groups = some c)
    (hlen : groups.length = 3 ∨ groups.length = 4)
    (hpos : ∀ g ∈ groups, 0 < g)
    (order : ℤ) (hord : 1 < order) (sub : Bool) :
    (order ≤ 1 + c.defC →
      determine_position order c.defC c.mid0 c.mid1 c.mid2 c.ata sub =
        (some "def", some (fmtFrac (order - 1) c.defC), some "DEF")) ∧
    (1 + c.defC < order → order ≤ 1 + c.defC + c.mid0 →
      determine_position order c.defC c.mid0 c.mid1 c.mid2 c.ata sub =
        (some "mid_0", some (fmtFrac (order - 1 - c.defC) c.mid0), some "MED")) ∧
    (1 + c.defC + c.mid0 < order → order ≤ 1 + c.defC + c.mid0 + c.mid1 →
      determine_position order c.defC c.mid0 c.mid1 c.mid2 c.ata sub =
        (some "mid_1", some (fmtFrac (order - 1 - c.defC - c.mid0) c.mid1), some "MED")) ∧
    (1 + c.defC + c.mid0 + c.mid1 < order →
      order ≤ 1 + c.defC + c.mid0 + c.mid1 + c.mid2 →
      determine_position order c.defC c.mid0 c.mid1 c.mid2 c.ata sub =
        (some "mid_2", some (fmtFrac (order - 1 - c.defC - c.mid0 - c.mid1) c.mid2),
          some "MED")) ∧
    (1 + c.defC + c.mid0 + c.mid1 + c.mid2 < order →
      order ≤ 1 + c.defC + c.mid0 + c.mid1 + c.mid2 + c.ata →
      determine_position order c.defC c.mid0 c.mid1 c.mid2 c.ata sub =
        (some "ata", some (fmtFrac (order - 1 - c.defC - c.mid0 - c.mid1 - c.mid2) c.ata),
          some "ATA")) ∧
    (groups.length = 4 →
      (∃ g0 g1 g2 g3, groups = [g0, g1, g2, g3] ∧ c = ⟨g0, g1, 0, g2, g3⟩) ∧
      ∀ (o : ℤ) (s : Bool),
        (determine_position o c.defC c.mid0 c.mid1 c.mid2 c.ata s).1 ≠ some "mid_1") ∧
    (groups.length = 3 →
      (∃ g0 g1 g2, groups = [g0, g1, g2] ∧ c = ⟨g0, 0, g1, 0, g2⟩) ∧
      ∀ (o : ℤ) (s : Bool),
        (determine_position o c.defC c.mid0 c.mid1 c.mid2 c.ata s).1 ≠ some "mid_0" ∧
        (determine_position o c.defC c.mid0 c.mid1 c.mid2 c.ata s).1 ≠ some "mid_2") := by
  have key : (∃ g0 g1 g2 g3, groups = [g0, g1, g2, g3] ∧ c = ⟨g0, g1, 0, g2, g3⟩) ∨
      (∃ g0 g1 g2, groups = [g0, g1, g2] ∧ c = ⟨g0, 0, g1, 0, g2⟩) := by
    rcases hlen with h3 | h4
    · obtain ⟨g0, g1, g2, rfl⟩ := list_length_three h3
      have h' : some (⟨g0, 0, g1, 0, g2⟩ : FormationCounts) = some c := hparse
      exact Or.inr ⟨g0, g1, g2, rfl, (Option.some.inj h').symm⟩
    · obtain ⟨g0, g1, g2, g3, rfl⟩ := list_length_four h4
      have h' : some (⟨g0, g1, 0, g2, g3⟩ : FormationCounts) = some c := hparse
      exact Or.inl ⟨g0, g1, g2, g3, rfl, (Option.some.inj h').symm⟩
  rcases key with ⟨g0, g1, g2, g3, hg, hc⟩ | ⟨g0, g1, g2, hg, hc⟩ <;> subst hg <;> subst hc
  · have hp1 : (0:ℤ) < g1 := hpos g1 (by simp)
    have hp2 : (0:ℤ) < g2 := hpos g2 (by simp)
    refine ⟨fun h => dp_def_branch order g0 g1 0 g2 g3 sub hord h,
      fun hp h => dp_mid0_branch order g0 g1 0 g2 g3 sub hord hp h,
      fun hp h => dp_mid1_branch order g0 g1 0 g2 g3 sub (by omega) hord hp h,
      fun hp h => dp_mid2_branch order g0 g1 0 g2 g3 sub (by omega) (by omega) hord hp h,
      fun hp h => dp_ata_branch order g0 g1 0 g2 g3 sub (by omega) (by omega) (by omega)
        hord hp h,
      fun _ => ⟨⟨g0, g1, g2, g3, rfl, rfl⟩, fun o s => dp_ne_mid1 g0 g1 0 g2 g3 rfl o s⟩,
      fun habs => absurd habs (by simp)⟩
  · have hp1 : (0:ℤ) < g1 := hpos g1 (by simp)
    refine ⟨fun h => dp_def_branch order g0 0 g1 0 g2 sub hord h,
      fun hp h => dp_mid0_branch order g0 0 g1 0 g2 sub hord hp h,
      fun hp h => dp_mid1_branch order g0 0 g1 0 g2 sub (by omega) hord hp h,
      fun hp h => dp_mid2_branch order g0 0 g1 0 g2 sub (by omega) (by omega) hord hp h,
      fun hp h => dp_ata_branch order g0 0 g1 0 g2 sub (by omega) (by omega) (by omega)
        hord hp h,
      fun habs => absurd habs (by simp),
      fun _ => ⟨⟨g0, g1, g2, rfl, rfl⟩,
        fun o s => ⟨dp_ne_mid0 g0 0 g1 0 g2 rfl o s, dp_ne_mid2 g0 0 g1 0 g2 rfl o s⟩⟩⟩

/-- Witness for C1: formation 4-2-3-1, order 3 resolves to the second
defender slot. -/
theorem c1_formation_group_resolution_witness :
    determine_position 3 4 2 0 3 1 false = (some "def", some "2/4", some "DEF") := by
  have h := (c1_formation_group_resolution [4, 2, 3, 1] ⟨4, 2, 0, 3, 1⟩ (by decide)
    (Or.inr (by decide)) (by decide) 3 (by decide) false).1 (by decide)
  exact h.trans (by decide)

/-- A filter over the order window `[1, 11]` whose predicate is an interval
membership is that interval. -/
lemma filter_Icc_eq (P : ℤ → Prop) [DecidablePred P] (lo hi : ℤ)
    (hlo : 1 ≤ lo) (hhi : hi ≤ 11)
    (hchar : ∀ o : ℤ, 1 ≤ o → o ≤ 11 → (P o ↔ lo ≤ o ∧ o ≤ hi)) :
    (Finset.Icc (1:ℤ) 11).filter P = Finset.Icc lo hi := by
  ext o
  simp only [Finset.mem_filter, Finset.mem_Icc]
  constructor
  · rintro ⟨⟨ha1, ha2⟩, hP⟩
    exact (hchar o ha1 ha2).1 hP
  · rintro ⟨ha1, ha2⟩
    have ho1 : (1:ℤ) ≤ o := le_trans hlo ha1
    have ho11 : o ≤ 11 := le_trans ha2 hhi
    exact ⟨⟨ho1, ho11⟩, (hchar o ho1 ho11).2 ⟨ha1, ha2⟩⟩

/-- For nonnegative counts totalling 10, the line produced for an order in
`[1, 11]` is characterised by the cumulative boundary windows. -/
lemma dp_line_char (d m0 m1 m2 a : ℤ) (sub : Bool)
    (hd : 0 ≤ d) (hm0 : 0 ≤ m0) (hm1 : 0 ≤ m1) (hm2 : 0 ≤ m2) (ha : 0 ≤ a)
    (hsum : d + m0 + m1 + m2 + a = 10) (o : ℤ) (ho1 : 1 ≤ o) (ho11 : o ≤ 11) :
    ((determine_position o d m0 m1 m2 a sub).1 = some "por" ↔ 1 ≤ o ∧ o ≤ 1) ∧
    ((determine_position o d m0 m1 m2 a sub).1 = some "def" ↔ 2 ≤ o ∧ o ≤ 1 + d) ∧
    ((determine_position o d m0 m1 m2 a sub).1 = some "mid_0" ↔
      2 + d ≤ o ∧ o ≤ 1 + d + m0) ∧
    ((determine_position o d m0 m1 m2 a sub).1 = some "mid_1" ↔
      2 + d + m0 ≤ o ∧ o ≤ 1 + d + m0 + m1) ∧
    ((determine_position o d m0 m1 m2 a sub).1 = some "mid_2" ↔
      2 + d + m0 + m1 ≤ o ∧ o ≤ 1 + d + m0 + m1 + m2) ∧
    ((determine_position o d m0 m1 m2 a sub).1 = some "ata" ↔
      2 + d + m0 + m1 + m2 ≤ o ∧ o ≤ 1 + d + m0 + m1 + m2 + a) := by
  simp only [determine_position]
  split_ifs <;> simp_all <;> omega

/-- C4: whenever `determine_position` (at any 1-based order) returns a
non-null lateral slot, that slot is `"{k}/{n}"` with `1 ≤ k ≤ n` and `n`
equal to the size of the assigned group (so a zero-size group never
appears as a denominator); and for counts of a full starting XI
(nonnegative, totalling 10), the number of orders in `[1, 11]` resolved
into each line equals that line's group size. -/
theorem c4_lateral_slot_denominator (d m0 m1 m2 a : ℤ) (sub : Bool) :
    (∀ order : ℤ, 1 ≤ order → ∀ lat : String,
      (determine_position order d m0 m1 m2 a sub).2.1 = some lat →
      ∃ k n : ℤ, lat = fmtFrac k n ∧ 1 ≤ k ∧ k ≤ n ∧
        (((determine_position order d m0 m1 m2 a sub).1 = some "por" ∧ n = 1) ∨
         ((determine_position order d m0 m1 m2 a sub).1 = some "def" ∧ n = d) ∨
         ((determine_position order d m0 m1 m2 a sub).1 = some "mid_0" ∧ n = m0) ∨
         ((determine_position order d m0 m1 m2 a sub).1 = some "mid_1" ∧ n = m1) ∨
         ((determine_position order d m0 m1 m2 a sub).1 = some "mid_2" ∧ n = m2) ∨
         ((determine_position order d m0 m1 m2 a sub).1 = some "ata" ∧ n = a))) ∧
    (0 ≤ d → 0 ≤ m0 → 0 ≤ m1 → 0 ≤ m2 → 0 ≤ a → d + m0 + m1 + m2 + a = 10 →
      ((((Finset.Icc (1:ℤ) 11).filter
          fun o => (determine_position o d m0 m1 m2 a sub).1 = some "por").card : ℤ) = 1 ∧
       (((Finset.Icc (1:ℤ) 11).filter
          fun o => (determine_position o d m0 m1 m2 a sub).1 = some "def").card : ℤ) = d ∧
       (((Finset.Icc (1:ℤ) 11).filter
          fun o => (determine_position o d m0 m1 m2 a sub).1 = some "mid_0").card : ℤ) = m0 ∧
       (((Finset.Icc (1:ℤ) 11).filter
          fun o => (determine_position o d m0 m1 m2 a sub).1 = some "mid_1").card : ℤ) = m1 ∧
       (((Finset.Icc (1:ℤ) 11).filter
          fun o => (determine_position o d m0 m1 m2 a sub).1 = some "mid_2").card : ℤ) = m2 ∧
       (((Finset.Icc (1:ℤ) 11).filter
          fun o => (determine_position o d m0 m1 m2 a sub).1 = some "ata").card : ℤ) = a)) := by
  constructor
  · intro order hord lat hlat
    simp only [determine_position] at hlat ⊢
    split_ifs at hlat ⊢ with h1 h2 h3 h4 h5 h6 h7 h8
    · simp only [Option.some.injEq] at hlat
      subst hlat
      exact ⟨1, 1, by decide, by decide, by decide, Or.inl ⟨rfl, rfl⟩⟩
    · simp only [Option.some.injEq] at hlat
      subst hlat
      exact ⟨order - 1, d, rfl, by omega, by omega, Or.inr (Or.inl ⟨rfl, rfl⟩)⟩
    · simp only [Option.some.injEq] at hlat
      subst hlat
      exact ⟨order - 1 - d, m0, rfl, by omega, by omega,
        Or.inr (Or.inr (Or.inl ⟨rfl, rfl⟩))⟩
    · simp only [Option.some.injEq] at hlat
      subst hlat
      exact ⟨order - 1 - d - m0, m1, rfl, by omega, by omega,
        Or.inr (Or.inr (Or.inr (Or.inl ⟨rfl, rfl⟩)))⟩
    · simp only [Option.some.injEq] at hlat
      subst hlat
      exact ⟨order - 1 - d - m0 - m1, m2, rfl, by omega, by omega,
        Or.inr (Or.inr (Or.inr (Or.inr (Or.inl ⟨rfl, rfl⟩))))⟩
    · simp only [Option.some.injEq] at hlat
      subst hlat
      exact ⟨order - 1 - d - m0 - m1 - m2, a, rfl, by omega, by omega,
        Or.inr (Or.inr (Or.inr (Or.inr (Or.inr ⟨rfl, rfl⟩))))⟩
    all_goals exact absurd hlat (by simp)
  · intro hd hm0 hm1 hm2 ha hsum
    refine ⟨?_, ?_, ?_, ?_, ?_, ?_⟩
    · rw [filter_Icc_eq _ 1 1 (by omega) (by omega)
        (fun o ho1 ho11 => (dp_line_char d m0 m1 m2 a sub hd hm0 hm1 hm2 ha hsum
          o ho1 ho11).1), Int.card_Icc]
      omega
    · rw [filter_Icc_eq _ 2 (1 + d) (by omega) (by omega)
        (fun o ho1 ho11 => (dp_line_char d m0 m1 m2 a sub hd hm0 hm1 hm2 ha hsum
          o ho1 ho11).2.1), Int.card_Icc]
      omega
    · rw [filter_Icc_eq _ (2 + d) (1 + d + m0) (by omega) (by omega)
        (fun o ho1 ho11 => (dp_line_char d m0 m1 m2 a sub hd hm0 hm1 hm2 ha hsum
          o ho1 ho11).2.2.1), Int.card_Icc]
      omega
    · rw [filter_Icc_eq _ (2 + d + m0) (1 + d + m0 + m1) (by omega) (by omega)
        (fun o ho1 ho11 => (dp_line_char d m0 m1 m2 a sub hd hm0 hm1 hm2 ha hsum
          o ho1 ho11).2.2.2.1), Int.card_Icc]
      omega
    · rw [filter_Icc_eq _ (2 + d + m0 + m1) (1 + d + m0 + m1 + m2) (by omega) (by omega)
        (fun o ho1 ho11 => (dp_line_char d m0 m1 m2 a sub hd hm0 hm1 hm2 ha hsum
          o ho1 ho11).2.2.2.2.1), Int.card_Icc]
      omega
    · rw [filter_Icc_eq _ (2 + d + m0 + m1 + m2) (1 + d + m0 + m1 + m2 + a) (by omega)
        (by omega)
        (fun o ho1 ho11 => (dp_line_char d m0 m1 m2 a sub hd hm0 hm1 hm2 ha hsum
          o ho1 ho11).2.2.2.2.2), Int.card_Icc]
      omega

/-- Witness for C4: in a 4-2-3-1 formation exactly four of the orders 1..11
resolve to the defense line. -/
theorem c4_lateral_slot_denominator_witness :
    (((Finset.Icc (1:ℤ) 11).filter
      fun o => (determine_position o 4 2 0 3 1 false).1 = some "def").card : ℤ) = 4 :=
  ((c4_lateral_slot_denominator 4 2 0 3 1 false).2 (by decide) (by decide) (by decide)
    (by decide) (by decide) (by decide)).2.1

/-- C6 (behaviour at the failing input and around it): with a home roster
of 2 and exactly 2 aligned samples every home row carries non-null spatial
fields; with 1 sample (roster minus one) exactly one output row keeps null
spatial fields and it is the last home roster entry (id 2); but with an
empty sample list the per-match processing aborts (`NameError` on the
never-assigned `avg_id`), i.e. a short sample list IS a hard failure for
the match, contradicting the claim. -/
theorem c6_incomplete_sample_behaviour :
    (processMatch none matchAligned).1.isSome = true ∧
    ((processMatch none matchAligned).1.getD []).all
      (fun r => r.averageX.isSome && r.averageY.isSome && r.pointsCount.isSome) = true ∧
    ((processMatch none matchShortSample).1.getD []).countP
      (fun r => r.averageX.isNone) = 1 ∧
    (((processMatch none matchShortSample).1.getD []).filter
      (fun r => r.averageX.isNone)).map (fun r => r.id) = [2] ∧
    (processMatch none matchEmptySample).1 = none := by decide

/-- C7 (failing input): in `matchShortSample` the roster holds the player
with id 1 exactly once, yet the match is processed without error and its
output holds two rows for that player — the stale re-appended sample
duplicates id 1 in the average-position table and the left merge then
duplicates the roster row. -/
theorem c7_roster_row_duplication :
    (matchShortSample.home.players.map Player.id ++
      matchShortSample.away.players.map Player.id).countP (fun i => i == 1) = 1 ∧
    (processMatch none matchShortSample).1.isSome = true ∧
    ((processMatch none matchShortSample).1.getD []).countP (fun r => r.id == 1) = 2 ∧
    ((processMatch none matchShortSample).1.getD []).length = 4 := by decide

/-- C8 (failing input): a batch whose only event fails — or an empty batch —
makes the final `pd.concat(dfs)` raise (`dfs` is empty), so the batch-level
operation fails as a whole instead of returning an empty table; when at
least one event succeeds the failure of another event is contained and the
batch succeeds. -/
theorem c8_all_failed_batch_raises :
    get_lineups_from_events [EventOutcome.fetchError] = none ∧
    get_lineups_from_events [] = none ∧
    (get_lineups_from_events
      [EventOutcome.fetchError, EventOutcome.finished matchAligned]).isSome = true := by
  decide

/-- C9 counterexample: the two-group formation `"4-6"` does not split into
3 or 4 groups, yet it is not rejected — it parses to counts
(4, 0, 6, 0, 6) and its match contributes lineup rows to the batch
output. -/
theorem c9_two_group_formation_not_rejected :
    parseFormationCounts [4, 6] = some ⟨4, 0, 6, 0, 6⟩ ∧
    (get_lineups_from_events [EventOutcome.finished matchTwoGroups]).isSome = true ∧
    ((get_lineups_from_events [EventOutcome.finished matchTwoGroups]).getD []).length = 2 := by
  decide

/-- C9 amended: only formation strings whose parsing raises are rejected —
fewer than two groups (IndexError; a non-numeric or empty group likewise
raises in `int()` before this point) — and a parse failure skips the match;
but any numeric string with at least two groups is accepted: with group
count other than 4 it is read as defense = first group, the single middle
midfield group = second group, attack = last group, and with exactly 4
groups as defense, mid-0, mid-2, attack. -/
theorem c9_formation_parse_acceptance :
    (∀ groups : List ℤ, groups.length ≤ 1 → parseFormationCounts groups = none) ∧
    (∀ (st : Option AvgSample) (m : MatchInput),
      parseFormationCounts m.home.formationGroups = none → (processMatch st m).1 = none) ∧
    (∀ (g0 g1 : ℤ) (rest : List ℤ), (g0 :: g1 :: rest).length ≠ 4 →
      parseFormationCounts (g0 :: g1 :: rest) =
        some ⟨g0, 0, g1, 0, (g0 :: g1 :: rest).getLast (List.cons_ne_nil g0 (g1 :: rest))⟩) ∧
    (∀ g0 g1 g2 g3 : ℤ, parseFormationCounts [g0, g1, g2, g3] = some ⟨g0, g1, 0, g2, g3⟩) := by
  refine ⟨?_, ?_, ?_, ?_⟩
  · intro groups h
    rcases groups with _ | ⟨a, _ | ⟨b, t⟩⟩
    · rfl
    · rfl
    · exfalso; simp only [List.length_cons] at h; omega
  · intro st m h
    unfold processMatch
    rw [h]
  · intro g0 g1 rest h
    have hg : (g0 :: g1 :: rest).getLast? =
        some ((g0 :: g1 :: rest).getLast (List.cons_ne_nil g0 (g1 :: rest))) :=
      List.getLast?_eq_getLast _ _
    simp only [parseFormationCounts, List.get?_cons_zero, List.get?_cons_succ, hg, if_neg h]
  · intro g0 g1 g2 g3
    rfl

/-- Witness for the amended C9: `"4-6"` is accepted as (4, 0, 6, 0, 6) and
a single-group string is rejected. -/
theorem c9_formation_parse_acceptance_witness :
    parseFormationCounts [4, 6] = some ⟨4, 0, 6, 0, 6⟩ ∧
    parseFormationCounts [10] = none := by
  constructor
  · exact (c9_formation_parse_acceptance.2.2.1 4 6 [] (by decide)).trans (by decide)
  · exact c9_formation_parse_acceptance.1 [10] (by decide)
